import Mathlib

set_option maxRecDepth 20000

namespace Qudi

/-! Shallow embedding of the qudi repository fragments that the claims concern:
the FastComtec p7887 fast-counter driver, the National Instruments X-series
DAQ driver, the pentacene pulse-sequence generators, and the cavity
stabilisation console.  Python numbers are modelled as exact rationals,
Python `int(...)` truncation as `pyTrunc`, fallible Python code as `Except`. -/

/-- Python error kinds raised by the embedded code. -/
inductive PyErr where
  | typeError
  | attributeError
  | valueError
deriving DecidableEq

/-- Python `int(x)` on a float: truncation toward zero. -/
def pyTrunc (q : ℚ) : ℤ := if 0 ≤ q then ⌊q⌋ else ⌈q⌉

/-- Fueled base-2 logarithm on naturals (floor), structural so it kernel-reduces. -/
def natLog2Aux : ℕ → ℕ → ℕ
  | 0, _ => 0
  | Nat.succ f, n => if 2 ≤ n then natLog2Aux f (n / 2) + 1 else 0

/-- Floor of the base-2 logarithm of a natural number. -/
def natLog2 (n : ℕ) : ℕ := natLog2Aux n n

/-- Python `int(np.log2 q)`: base-2 logarithm truncated toward zero
(for `q` in `(0,1)` the logarithm is negative, and `int` truncation toward zero
gives minus the floor of the logarithm of the reciprocal). -/
def pyIntLog2 (q : ℚ) : ℤ :=
  if q ≤ 0 then 0
  else if 1 ≤ q then (natLog2 ⌊q⌋.toNat : ℤ)
  else -(natLog2 ⌊1 / q⌋.toNat : ℤ)

/-- Python `2 ** b` for an integer exponent, as an exact rational. -/
def pyPow2 (b : ℤ) : ℚ :=
  if 0 ≤ b then ((2 : ℚ) ^ b.toNat) else 1 / ((2 : ℚ) ^ (-b).toNat)

/-- Python float `a % b` (sign of the divisor; used only with positive operands). -/
def pyMod (a b : ℚ) : ℚ := a - b * ⌊a / b⌋

/-- Concatenation of a list of lists (structural replacement for numpy stacking). -/
def concatLists {α : Type} : List (List α) → List α
  | [] => []
  | l :: ls => l ++ concatLists ls

/-- Whether an `Except` computation finished without raising. -/
def exceptIsOk {ε α : Type} : Except ε α → Bool
  | Except.ok _ => true
  | Except.error _ => false

/-! IEEE binary64 arithmetic, modelled exactly: every double is the exact
rational it denotes, and each operation rounds the exact result to 53
significant bits, to nearest with ties to even.  The model covers the normal
range (every value in this development is far from the subnormal and overflow
thresholds). -/

/-- Fueled ceiling base-2 logarithm on naturals, structural so it
kernel-reduces. -/
def natClog2Aux : ℕ → ℕ → ℕ
  | 0, _ => 0
  | Nat.succ f, n => if 2 ≤ n then natClog2Aux f ((n + 1) / 2) + 1 else 0

/-- Ceiling of the base-2 logarithm of a natural number (0 for 0 and 1). -/
def natClog2 (n : ℕ) : ℕ := natClog2Aux n n

/-- Floor of the base-2 logarithm of a positive rational (0 for inputs that
are not positive): for `q < 1` it is minus the ceiling logarithm of the
reciprocal. -/
def floorLog2 (q : ℚ) : ℤ :=
  if q ≤ 0 then 0
  else if 1 ≤ q then (natLog2 ⌊q⌋.toNat : ℤ)
  else -(natClog2 ⌈1 / q⌉.toNat : ℤ)

/-- Rounds a rational to the nearest integer, ties to even. -/
def roundHalfEven (m : ℚ) : ℤ :=
  let fl := ⌊m⌋
  let frac := m - (fl : ℚ)
  if frac < 1 / 2 then fl
  else if 1 / 2 < frac then fl + 1
  else if fl % 2 = 0 then fl else fl + 1

/-- Rounds a positive rational to binary64: scale the significand into
`[2^52, 2^53)`, round to nearest-even, scale back. -/
def roundF64Pos (q : ℚ) : ℚ :=
  let e := floorLog2 q
  ((roundHalfEven (q * pyPow2 (52 - e)) : ℤ) : ℚ) * pyPow2 (e - 52)

/-- Rounds a rational to the nearest binary64 value (normal range). -/
def roundF64 (q : ℚ) : ℚ :=
  if q = 0 then 0
  else if q < 0 then -(roundF64Pos (-q)) else roundF64Pos q

/-- The exact value of a Python float literal: the written decimal correctly
rounded to binary64. -/
def f64lit (q : ℚ) : ℚ := roundF64 q

/-- IEEE binary64 addition of two represented values. -/
def fadd64 (a b : ℚ) : ℚ := roundF64 (a + b)

/-- IEEE binary64 subtraction of two represented values. -/
def fsub64 (a b : ℚ) : ℚ := roundF64 (a - b)

/-- IEEE binary64 multiplication of two represented values. -/
def fmul64 (a b : ℚ) : ℚ := roundF64 (a * b)

/-- IEEE binary64 division of two represented values. -/
def fdiv64 (a b : ℚ) : ℚ := roundF64 (a / b)

/-! FastComtec p7887 driver (src/hardware/fastcomtec/fastcomtecp7887.py).
Device state mirrors the writable `AcqSettings` fields the driver touches via
ASCII `RunCmd` commands plus the driver's own Python-side attributes. -/

/-- Software-side distinction kept in `self.stopped_or_halt`. -/
inductive StopHalt where
  | stopped
  | halt
deriving DecidableEq

/-- A time trace as returned by `get_data_trace`: 1-D when ungated, 2-D when gated. -/
inductive Trace where
  | one : List ℤ → Trace
  | two : List (List ℤ) → Trace
deriving DecidableEq

/-- The info record returned next to the trace (`elapsed_sweeps`, `elapsed_time`). -/
structure FcInfo where
  elapsed_sweeps : ℚ
  elapsed_time : Option ℚ
deriving DecidableEq

/-- The `self.timetrace_tmp` buffer.  Initially the empty list; after a gated
`pause_measure` it holds the WHOLE return value of `get_data_trace`, which is
the pair (trace, info record). -/
inductive TmpBuf where
  | empty : TmpBuf
  | snapshot : Trace → FcInfo → TmpBuf
deriving DecidableEq

/-- Driver + device state for the FastComtec card.  `trigger_safety`,
`aom_delay` and `minimal_binwidth` are the config options; `bitshift`,
`range`, `cycles`, `swpreset`, `prena`, `sweepmode` mirror the device
`AcqSettings` fields written through `RunCmd`; `sequencesDev` records the
value sent by the `sequences=` command (which has no `AcqSettings` mirror). -/
structure FcState where
  gated : Bool
  trigger_safety : ℚ
  aom_delay : ℚ
  minimal_binwidth : ℚ
  stopped_or_halt : StopHalt
  timetrace_tmp : TmpBuf
  bitshift : ℤ
  range : ℤ
  cycles : ℤ
  swpreset : ℚ
  prena : ℤ
  sweepmode : ℤ
  sequencesDev : ℤ
deriving DecidableEq

/-- The `max_bins` constraint: `6.8 / 0.25e-9` (`get_constraints`). -/
def fc_max_bins : ℚ := (68 / 10) / (25 / (100 * 1000000000))

/-- `get_bitshift`: reads the device bitshift. -/
def fc_get_bitshift (st : FcState) : ℤ := st.bitshift

/-- `set_bitshift`: sends `BITSHIFT=` and reads back. -/
def fc_set_bitshift (st : FcState) (b : ℤ) : FcState × ℤ :=
  ({ st with bitshift := b }, b)

/-- `get_binwidth`: `minimal_binwidth * 2**int(get_bitshift())`, a binary64
multiplication of the stored float by the exact power of two. -/
def fc_get_binwidth (st : FcState) : ℚ :=
  fmul64 st.minimal_binwidth (pyPow2 (fc_get_bitshift st))

/-- `set_binwidth`: converts the requested binwidth to a bitshift via
`int(np.log2(binwidth / minimal_binwidth))` — the quotient is a binary64
division, and `int(np.log2(...))` is modelled as the truncated exact base-2
logarithm of that quotient (`np.log2` is exact at the power-of-two quotients
the supported binwidths produce) — then writes it and reads back. -/
def fc_set_binwidth (st : FcState) (binwidth : ℚ) : FcState × ℚ :=
  let stA := (fc_set_bitshift st (pyIntLog2 (fdiv64 binwidth st.minimal_binwidth))).1
  (stA, fc_get_binwidth stA)

/-- `get_cycles`: reads the device cycles setting. -/
def fc_get_cycles (st : FcState) : ℤ := st.cycles

/-- `is_gated`. -/
def fc_is_gated (st : FcState) : Bool := st.gated

/-- `get_length`: `int(setting.range / cycles)` with `cycles` taken from the
device when gated (0 replaced by 1) and 1 otherwise. -/
def fc_get_length (st : FcState) : ℤ :=
  let cycles : ℤ :=
    if fc_is_gated st then (if fc_get_cycles st = 0 then 1 else fc_get_cycles st) else 1
  pyTrunc ((st.range : ℚ) / (cycles : ℚ))

/-- `set_length`: when `length_bins * cycles` is under the `max_bins`
constraint, rounds down to a multiple of 64 (`64 * int(length_bins / 64)`),
writes `RANGE=` and `roimax=`, and returns the rounded value; otherwise logs
an error and returns -1 leaving the device untouched. -/
def fc_set_length (st : FcState) (length_bins : ℤ) : FcState × ℤ :=
  let cycles : ℤ := if fc_is_gated st then fc_get_cycles st else 1
  if ((length_bins * cycles : ℤ) : ℚ) < fc_max_bins then
    let lb := 64 * pyTrunc ((length_bins : ℚ) / 64)
    ({ st with range := lb }, lb)
  else
    (st, -1)

/-- `set_cycles`: replaces 0 by 1, checks the `max_bins` constraint against
`get_length() * cycles`, then writes `cycles=`. -/
def fc_set_cycles (st : FcState) (cycles : ℤ) : FcState × ℤ :=
  let c : ℤ := if cycles = 0 then 1 else cycles
  if ((fc_get_length st * c : ℤ) : ℚ) < fc_max_bins then
    ({ st with cycles := c }, c)
  else
    (st, -1)

/-- `set_sequences`: sends `sequences=` to the device. -/
def fc_set_sequences (st : FcState) (s : ℤ) : FcState × ℤ :=
  ({ st with sequencesDev := s }, s)

/-- `set_preset`: sends `swpreset=` to the device. -/
def fc_set_preset (st : FcState) (p : ℚ) : FcState × ℚ :=
  ({ st with swpreset := p }, p)

/-- The bin count `configure` computes before rounding: after setting the
binwidth, `int((record_length_s + aom_delay) / binwidth)` when gated, else
`int((record_length_s - trigger_safety) / binwidth)`, with the sum or
difference and the quotient evaluated in binary64 like the Python floats. -/
def fc_configure_bins (st : FcState) (bin_width_s record_length_s : ℚ) : ℤ :=
  let stA := (fc_set_binwidth st bin_width_s).1
  let bw := fc_get_binwidth stA
  if stA.gated then pyTrunc (fdiv64 (fadd64 record_length_s stA.aom_delay) bw)
  else pyTrunc (fdiv64 (fsub64 record_length_s stA.trigger_safety) bw)

/-- `configure(bin_width_s, record_length_s, number_of_gates, filename,
n_sequences, n_sweeps_preset)`: sets the binwidth, computes the bin count,
calls `set_length`, applies the gated cycles/sequences branch and the optional
sweep preset, and returns `(get_binwidth(), record_length, number_of_gates)`. -/
def fc_configure (st : FcState) (bin_width_s record_length_s : ℚ)
    (number_of_gates : ℤ) (n_sequences : Option ℤ) (n_sweeps_preset : Option ℚ) :
    FcState × (ℚ × ℚ × ℤ) :=
  let stA := (fc_set_binwidth st bin_width_s).1
  let bin_width_new := fc_get_binwidth stA
  let no_of_bins := fc_configure_bins st bin_width_s record_length_s
  let stB := (fc_set_length stA no_of_bins).1
  let stC :=
    if stB.gated then
      let stG := (fc_set_cycles stB number_of_gates).1
      match n_sequences with
      | some ns => (fc_set_sequences stG ns).1
      | none => (fc_set_sequences stG (2 ^ 31 - 1)).1
    else stB
  let stD :=
    match n_sweeps_preset with
    | some p => (fc_set_preset stC p).1
    | none => stC
  let record_length := fmul64 ((fc_get_length stD : ℤ) : ℚ) bin_width_new
  (stD, (fc_get_binwidth stD, record_length, number_of_gates))

/-- Freshly activated ungated FastComtec driver with the default config
options (`gated=False`, `trigger_safety=200e-9`, `aom_delay=400e-9`,
`minimal_binwidth=0.25e-9`). -/
def fcDefault : FcState :=
  { gated := false
    trigger_safety := 1 / 5000000
    aom_delay := 1 / 2500000
    minimal_binwidth := 1 / 4000000000
    stopped_or_halt := StopHalt.stopped
    timetrace_tmp := TmpBuf.empty
    bitshift := 0
    range := 0
    cycles := 1
    swpreset := 0
    prena := 0
    sweepmode := 0
    sequencesDev := 0 }

/-! Busy-poll loops of start/stop/pause/continue_measure.  The device is
modelled by the stream `poll : ℕ → ℤ` of the values `get_status()` returns at
the successive calls made by the loop. -/

/-- The capped loop of `start_measure` / `stop_measure`:
`while get_status() != target and i_wait < n_wait_max: sleep; i_wait += 1`.
`fuel` is the remaining budget `n_wait_max - i_wait`; returns the final
`i_wait`.  Structural in `fuel`, so the loop provably terminates. -/
def cappedPollAux (poll : ℕ → ℤ) (target : ℤ) : ℕ → ℕ → ℕ
  | 0, i => i
  | Nat.succ f, i => if poll i ≠ target then cappedPollAux poll target f (i + 1) else i

/-- The uncapped loop of `pause_measure` / ungated `continue_measure`:
`while get_status() != target: sleep`.  The source loop has no iteration
bound, so it is modelled with explicit fuel: `none` means the loop is still
polling after `fuel` iterations. -/
def unboundedPollAux (poll : ℕ → ℤ) (target : ℤ) : ℕ → ℕ → Option ℕ
  | 0, _ => none
  | Nat.succ f, i => if poll i ≠ target then unboundedPollAux poll target f (i + 1) else some i

/-- `start_measure` polling: target status 2 (running), `n_wait_max = 20`;
returns the final `i_wait` and whether the timeout warning was logged
(`i_wait >= n_wait_max`). -/
def fc_start_measure_poll (poll : ℕ → ℤ) : ℕ × Bool :=
  let i := cappedPollAux poll 2 20 0
  (i, decide (20 ≤ i))

/-- `stop_measure` polling: target status 1 (idle), `n_wait_max = 20`. -/
def fc_stop_measure_poll (poll : ℕ → ℤ) : ℕ × Bool :=
  let i := cappedPollAux poll 1 20 0
  (i, decide (20 ≤ i))

/-- `pause_measure` polling: `while self.get_status() != 3: time.sleep(0.05)`
with no cap and no warning. -/
def fc_pause_measure_poll (poll : ℕ → ℤ) (fuel : ℕ) : Option ℕ :=
  unboundedPollAux poll 3 fuel 0

/-- `continue_measure` polling: when gated it delegates to `start_measure`
(capped); ungated it runs `while self.get_status() != 2: time.sleep(0.05)`
with no cap. -/
def fc_continue_measure_poll (gated : Bool) (poll : ℕ → ℤ) (fuel : ℕ) : Option ℕ :=
  if gated then some (fc_start_measure_poll poll).1
  else unboundedPollAux poll 2 fuel 0

/-! `get_data_trace` and `pause_measure` data handling.  The device histogram
read by `LVGetDat` is modelled as `hist : ℕ → ℤ` (flat bin values), and
`status.sweeps` as the parameter `sweeps`. -/

/-- `get_data_trace`: reads `range` and `cycles` from the device settings.
Ungated: a 1-D trace of length `range`.  Gated: a 2-D trace of shape
`(H, int(range / H))` with `H = cycles` replaced by 1 when 0.  When gated and
`timetrace_tmp != []`, the source computes `time_trace + self.timetrace_tmp`;
since a gated `pause_measure` stored the whole `(trace, info_dict)` tuple
there, numpy's attempt to coerce the `(ndarray, dict)` tuple into an addend
array fails (a dict cannot be broadcast or added to integers), so the call
raises instead of returning a sum. -/
def fc_get_data_trace (st : FcState) (hist : ℕ → ℤ) (sweeps : ℚ) :
    Except PyErr (Trace × FcInfo) :=
  let N := st.range
  if st.gated then
    let H0 := st.cycles
    let H := if H0 = 0 then 1 else H0
    let W := (pyTrunc ((N : ℚ) / (H : ℚ))).toNat
    let data := (List.range H.toNat).map (fun r => (List.range W).map (fun c => hist (r * W + c)))
    match st.timetrace_tmp with
    | TmpBuf.empty => Except.ok (Trace.two data, ⟨sweeps, none⟩)
    | TmpBuf.snapshot _ _ => Except.error PyErr.typeError
  else
    Except.ok (Trace.one ((List.range N.toNat).map hist), ⟨sweeps, none⟩)

/-- `pause_measure` (state part): sets `stopped_or_halt` to halt, issues
`Halt`, and when gated stores `self.timetrace_tmp = self.get_data_trace()` —
the full pair returned by `get_data_trace`, info record included. -/
def fc_pause_measure (st : FcState) (hist : ℕ → ℤ) (sweeps : ℚ) : Except PyErr FcState :=
  let stA := { st with stopped_or_halt := StopHalt.halt }
  if stA.gated then
    match fc_get_data_trace stA hist sweeps with
    | Except.ok pair => Except.ok { stA with timetrace_tmp := TmpBuf.snapshot pair.1 pair.2 }
    | Except.error e => Except.error e
  else
    Except.ok stA

/-! The `AcqSettings` ctypes structure and `get_sequences`. -/

/-- A ctypes structure value: the declared field list with the values the
device wrote into it. -/
structure CStruct where
  fields : List (String × ℤ)

/-- Python attribute access on a ctypes structure: fields not in the declared
`_fields_` list raise an AttributeError. -/
def cstructGetattr (s : CStruct) (name : String) : Except PyErr ℤ :=
  match s.fields.lookup name with
  | some v => Except.ok v
  | none => Except.error PyErr.attributeError

/-- The declared `_fields_` names of `AcqSettings`, in source order. -/
def acqSettingsFieldNames : List String :=
  [ "range", "prena", "cftfak", "roimin", "roimax", "eventpreset", "timepreset",
    "savedata", "fmt", "autoinc", "cycles", "sweepmode", "syncout", "bitshift",
    "digval", "digio", "dac0", "dac1", "swpreset", "nregions", "caluse",
    "fstchan", "active", "calpoints" ]

/-- An `AcqSettings` value filled by `GetSettingData` with device values `v`. -/
def acqSettings (v : String → ℤ) : CStruct :=
  ⟨acqSettingsFieldNames.map (fun n => (n, v n))⟩

/-- `get_sequences`: reads `bsetting.sequences` from a freshly filled
`AcqSettings`. -/
def fc_get_sequences (v : String → ℤ) : Except PyErr ℤ :=
  cstructGetattr (acqSettings v) "sequences"

/-! National Instruments X-series driver
(src/hardware/national_instruments_x_series.py). -/

/-- Scanner-positioning state: the module lock, the configured per-axis
position ranges and the tracked current-position vector
(`self._current_position`, axes in the fixed order x, y, z, a). -/
structure ScannerState where
  locked : Bool
  rangeX : ℚ × ℚ
  rangeY : ℚ × ℚ
  rangeZ : ℚ × ℚ
  rangeA : ℚ × ℚ
  posX : ℚ
  posY : ℚ
  posZ : ℚ
  posA : ℚ
deriving DecidableEq

/-- Tail of `scanner_set_position` handling axis a; on success the voltages
are written to the analog-output task (modelled as succeeding) and 0 is
returned. -/
def scanner_set_position_a (st : ScannerState) (a : Option ℚ) : ℤ × ScannerState :=
  match a with
  | none => (0, st)
  | some v =>
    if st.rangeA.1 ≤ v ∧ v ≤ st.rangeA.2 then (0, { st with posA := v })
    else (-1, st)

/-- Tail of `scanner_set_position` handling axes z then a. -/
def scanner_set_position_z (st : ScannerState) (z a : Option ℚ) : ℤ × ScannerState :=
  match z with
  | none => scanner_set_position_a st a
  | some v =>
    if st.rangeZ.1 ≤ v ∧ v ≤ st.rangeZ.2 then scanner_set_position_a { st with posZ := v } a
    else (-1, st)

/-- Tail of `scanner_set_position` handling axes y, z, a. -/
def scanner_set_position_y (st : ScannerState) (y z a : Option ℚ) : ℤ × ScannerState :=
  match y with
  | none => scanner_set_position_z st z a
  | some v =>
    if st.rangeY.1 ≤ v ∧ v ≤ st.rangeY.2 then scanner_set_position_z { st with posY := v } z a
    else (-1, st)

/-- `scanner_set_position(x, y, z, a)`: rejects when the module is locked,
then validates and writes each given axis in the order x, y, z, a —
`self._current_position[i] = np.float(v)` runs as soon as axis i passes its
own range check, before later axes are examined.  Returns the error code and
the final state. -/
def scanner_set_position (st : ScannerState) (x y z a : Option ℚ) : ℤ × ScannerState :=
  if st.locked then (-1, st)
  else
    match x with
    | none => scanner_set_position_y st y z a
    | some v =>
      if st.rangeX.1 ≤ v ∧ v ≤ st.rangeX.2 then scanner_set_position_y { st with posX := v } y z a
      else (-1, st)

/-- Writes axis x of the current-position vector if requested (used to state
which prefix of the vector a rejected call has already overwritten). -/
def updX (st : ScannerState) (x : Option ℚ) : ScannerState :=
  match x with
  | some v => { st with posX := v }
  | none => st

/-- Writes axis y of the current-position vector if requested. -/
def updY (st : ScannerState) (y : Option ℚ) : ScannerState :=
  match y with
  | some v => { st with posY := v }
  | none => st

/-- Writes axis z of the current-position vector if requested. -/
def updZ (st : ScannerState) (z : Option ℚ) : ScannerState :=
  match z with
  | some v => { st with posZ := v }
  | none => st

/-- Writes axis a of the current-position vector if requested. -/
def updA (st : ScannerState) (a : Option ℚ) : ScannerState :=
  match a with
  | some v => { st with posA := v }
  | none => st

/-- Whether a requested x value (if any) passes its range check. -/
def okX (st : ScannerState) (x : Option ℚ) : Bool :=
  match x with
  | some v => decide (st.rangeX.1 ≤ v ∧ v ≤ st.rangeX.2)
  | none => true

/-- Whether a requested y value (if any) passes its range check. -/
def okY (st : ScannerState) (y : Option ℚ) : Bool :=
  match y with
  | some v => decide (st.rangeY.1 ≤ v ∧ v ≤ st.rangeY.2)
  | none => true

/-- Whether a requested z value (if any) passes its range check. -/
def okZ (st : ScannerState) (z : Option ℚ) : Bool :=
  match z with
  | some v => decide (st.rangeZ.1 ≤ v ∧ v ≤ st.rangeZ.2)
  | none => true

/-- Whether a requested a value (if any) passes its range check. -/
def okA (st : ScannerState) (a : Option ℚ) : Bool :=
  match a with
  | some v => decide (st.rangeA.1 ≤ v ∧ v ≤ st.rangeA.2)
  | none => true

/-- Slow-counter state of the DAQ driver: the open counter tasks, the digital
counter channels, the analogue-input counter channels and their task, the
default sample count and the configured clock frequency. -/
structure CounterState where
  counter_daq_tasks : List ℕ
  counter_channels : List String
  counter_ai_channels : List String
  counter_analog_daq_task : Option ℕ
  samples_number : ℤ
  clock_frequency : ℚ

/-- `get_counter_channels`: the digital counter channels followed by the
analogue-input channels. -/
def get_counter_channels (st : CounterState) : List String :=
  st.counter_channels ++ st.counter_ai_channels

/-- `np.ones((rows, samples), dtype=np.uint32) * -1`, with `samples` the raw
argument.  When `samples` is the Python `None` the shape tuple is invalid and
numpy raises a TypeError (`None` cannot be interpreted as an integer); with an
integer it is the all-(-1) matrix. -/
def npOnesTimesNeg1 (rows : ℕ) (samples : Option ℤ) : Except PyErr (List (List ℚ)) :=
  match samples with
  | none => Except.error PyErr.typeError
  | some n => Except.ok (List.replicate rows (List.replicate n.toNat (-1)))

/-- `get_counter(samples)`: the two precondition checks build their error
return from the raw `samples` argument (the `samples is None` normalisation
only happens after them); then the counter rows are read (2 entries per
sample, adjacent pairs summed and scaled by the clock frequency) and the
analogue rows appended.  `hwFail` models an exception inside the read block;
`counts i k` and `analog i j` are the values the two blocking reads deliver. -/
def get_counter (st : CounterState) (samples : Option ℤ) (hwFail : Bool)
    (counts : ℕ → ℕ → ℤ) (analog : ℕ → ℕ → ℚ) : Except PyErr (List (List ℚ)) :=
  if st.counter_daq_tasks.length < 1 then
    npOnesTimesNeg1 (get_counter_channels st).length samples
  else if 0 < st.counter_ai_channels.length ∧ st.counter_analog_daq_task = none then
    npOnesTimesNeg1 (get_counter_channels st).length samples
  else
    let s : ℕ := (match samples with
      | none => st.samples_number
      | some n => n).toNat
    if hwFail then
      npOnesTimesNeg1 (get_counter_channels st).length (some (s : ℤ))
    else
      let real_data := (List.range st.counter_daq_tasks.length).map (fun i =>
        (List.range s).map (fun j =>
          ((counts i (2 * j) + counts i (2 * j + 1) : ℤ) : ℚ) * st.clock_frequency))
      let analog_rows := (List.range st.counter_ai_channels.length).map (fun i =>
        (List.range s).map (fun j => analog i j))
      Except.ok (real_data ++ analog_rows)

/-- Fixed-role clock state of the DAQ driver (`set_up_clock`). -/
structure NiClockState where
  clock_frequency : ℚ
  scanner_clock_frequency : ℚ
  default_clock_frequency : ℚ
  default_scanner_clock_frequency : ℚ
  clock_channel : String
  scanner_clock_channel : String
  clock_daq_task : Option ℕ
  scanner_clock_daq_task : Option ℕ

/-- The arguments of interest handed to `DAQmxCreateCOPulseChanFreq`: the idle
state, the pulse frequency and the duty cycle. -/
structure COPulseArgs where
  idleHigh : Bool
  freq : ℚ
  duty : ℚ
deriving DecidableEq

/-- `set_up_clock(clock_frequency, clock_channel, scanner, idle)`: rejects
when the role's task already exists, stores the (given or default) frequency
in the role's field, sets `my_clock_frequency` to twice that stored value,
optionally reassigns the channel, enforces the shared-channel-pair exclusion,
then creates the pulse channel with pulse frequency `my_clock_frequency / 2`
and duty cycle 0.5. -/
def set_up_clock (st : NiClockState) (clock_frequency : Option ℚ)
    (clock_channel : Option String) (scanner idle : Bool) :
    Except ℤ (NiClockState × COPulseArgs) :=
  if scanner = false ∧ st.clock_daq_task ≠ none then Except.error (-1)
  else if scanner = true ∧ st.scanner_clock_daq_task ≠ none then Except.error (-1)
  else
    let stA :=
      match clock_frequency with
      | some f =>
        if scanner then { st with scanner_clock_frequency := f }
        else { st with clock_frequency := f }
      | none =>
        if scanner then { st with scanner_clock_frequency := st.default_scanner_clock_frequency }
        else { st with clock_frequency := st.default_clock_frequency }
    let my_clock_frequency :=
      (if scanner then stA.scanner_clock_frequency else stA.clock_frequency) * 2
    let stB :=
      match clock_channel with
      | some c =>
        if scanner then { stA with scanner_clock_channel := c }
        else { stA with clock_channel := c }
      | none => stA
    if stB.scanner_clock_channel = stB.clock_channel
        ∧ ¬(stB.clock_daq_task = none ∧ stB.scanner_clock_daq_task = none) then
      Except.error (-1)
    else
      let args : COPulseArgs := { idleHigh := idle, freq := my_clock_frequency / 2, duty := 1 / 2 }
      let stC :=
        if scanner then { stB with scanner_clock_daq_task := some 1 }
        else { stB with clock_daq_task := some 1 }
      Except.ok (stC, args)

/-- Generalized clock-registry state of the DAQ driver (`set_up_clock_new`). -/
structure NiClockNewState where
  clock_daq_task_new : List String
  clock_frequency_new : List (String × ℚ)
  clock_channel_new : List (String × String)
  clock_channels : List String
  dummy_frequency : ℚ

/-- `set_up_clock_new(name, clock_frequency, clock_channel, idle, start)`:
rejects a name that already has a task, stores the frequency (replaced by the
dummy frequency when missing or non-positive), picks a free channel when none
is given, rejects a channel already in use, then creates the pulse channel
with pulse frequency `my_clock_frequency` (the stored value, undoubled) and
duty cycle 0.5. -/
def set_up_clock_new (st : NiClockNewState) (name : String) (clock_frequency : Option ℚ)
    (clock_channel : Option String) (idle : Bool) :
    Except ℤ (NiClockNewState × COPulseArgs) :=
  if st.clock_daq_task_new.contains name then Except.error (-1)
  else
    let freq :=
      match clock_frequency with
      | none => st.dummy_frequency
      | some f => if f ≤ 0 then st.dummy_frequency else f
    let stA := { st with clock_frequency_new := (name, freq) :: st.clock_frequency_new }
    let my_clock_frequency := freq
    let chan :=
      match clock_channel with
      | some c => some c
      | none => st.clock_channels.find? (fun i => !((st.clock_channel_new.map Prod.snd).contains i))
    match chan with
    | none => Except.error (-1)
    | some my_clock_channel =>
      if (stA.clock_channel_new.map Prod.snd).contains my_clock_channel then Except.error (-1)
      else
        let stB := { stA with
          clock_channel_new := (name, my_clock_channel) :: stA.clock_channel_new,
          clock_daq_task_new := name :: stA.clock_daq_task_new }
        Except.ok (stB, { idleHigh := idle, freq := my_clock_frequency, duty := 1 / 2 })

/-- Extracts the pulse frequency handed to `DAQmxCreateCOPulseChanFreq` from a
clock-setup result (-1 when the call was rejected). -/
def handedOrNeg1 {α : Type} : Except ℤ (α × COPulseArgs) → ℚ
  | Except.ok p => p.2.freq
  | Except.error _ => -1

/-! Pentacene pulse-sequence generators
(src/logic/pulsed/predefined_generate_methods/pentacene_methods.py).
The generator context (`PredefinedGeneratorBase`, defined in
logic/pulsed/pulse_objects.py, outside src/) supplies the timing constants
used by `self.wait_time`, `self.laser_length`, `self.rabi_period`,
`self.microwave_amplitude` and `self.microwave_frequency`. -/

/-- Generator context: the base-generator timing constants, plus the set of
Python attribute names that exist on the generator object. -/
structure GenCtx where
  microwave_frequency : ℚ
  microwave_amplitude : ℚ
  rabi_period : ℚ
  wait_time : ℚ
  laser_length : ℚ
  attrs : List String

/-- A pulse-block element as built by the element helpers used in this file:
idle, laser-gate, microwave, combined microwave+laser, and the delay-gate
element. -/
inductive PElem where
  | idle (length increment : ℚ)
  | laserGate (length increment : ℚ)
  | mw (length increment amp freq phase : ℚ)
  | mwLaser (length increment amp freq phase : ℚ)
  | delayGate
deriving DecidableEq

/-- The `measurement_information` entries relevant to the claims
(`laser_ignore_list` and `counting_length` are computed by pulse_objects,
outside src/, and are not modelled). -/
structure MeasInfo where
  alternating : Bool
  controlled_variable : List ℚ
  units : String × String
  labels : String × String
  number_of_lasers : ℕ
deriving DecidableEq

/-- A generator result: the single assembled block, the ensemble repetition
count it is appended with, and the measurement metadata. -/
structure GenResult where
  block : List PElem
  reps : ℕ
  info : MeasInfo
deriving DecidableEq

/-- Number of laser readout elements (laser-gate or combined microwave+laser)
in a block. -/
def countLasers (b : List PElem) : ℕ :=
  b.countP (fun e =>
    match e with
    | PElem.laserGate _ _ => true
    | PElem.mwLaser _ _ _ _ _ => true
    | _ => false)

/-- `generate_podmr_pentacene`: per swept frequency appends wait, microwave
drive (half Rabi period), post-drive wait, laser gate, delay — twice (the
second time with zero amplitude at half frequency) when `alternating_no_mw`;
`number_of_lasers` is set to `num_of_points` unconditionally. -/
def generate_podmr_pentacene (gen : GenCtx) (freq_start freq_step wait_2_time : ℚ)
    (num_of_points : ℕ) (alternating_no_mw : Bool) : GenResult :=
  let freq_array := (List.range num_of_points).map (fun i => freq_start + (i : ℚ) * freq_step)
  let waiting := PElem.idle gen.wait_time 0
  let laser := PElem.laserGate gen.laser_length 0
  let waitingAfterMW := PElem.idle wait_2_time 0
  let block := concatLists (freq_array.map (fun f =>
    [ waiting, PElem.mw (gen.rabi_period / 2) 0 gen.microwave_amplitude f 0,
      waitingAfterMW, laser, PElem.delayGate ]
    ++ (if alternating_no_mw then
        [ waiting, PElem.mw (gen.rabi_period / 2) 0 0 (f / 2) 0,
          waitingAfterMW, laser, PElem.delayGate ]
      else [])))
  { block := block
    reps := 0
    info :=
      { alternating := alternating_no_mw
        controlled_variable := freq_array
        units := ( "Hz", "")
        labels := ( "Frequency", "Signal")
        number_of_lasers := num_of_points } }

/-- `generate_fakecwodmr_pentacene`: per swept frequency appends a combined
microwave+laser element of duration `t_single`, delay, wait — twice (zero
amplitude at half frequency) when `alternating_no_mw`; `number_of_lasers` is
set to `num_of_points` unconditionally. -/
def generate_fakecwodmr_pentacene (gen : GenCtx) (freq_start freq_step t_single : ℚ)
    (num_of_points : ℕ) (alternating_no_mw : Bool) : GenResult :=
  let freq_array := (List.range num_of_points).map (fun i => freq_start + (i : ℚ) * freq_step)
  let waiting := PElem.idle gen.wait_time 0
  let block := concatLists (freq_array.map (fun f =>
    [ PElem.mwLaser t_single 0 gen.microwave_amplitude f 0, PElem.delayGate, waiting ]
    ++ (if alternating_no_mw then
        [ PElem.mwLaser t_single 0 0 (f / 2) 0, PElem.delayGate, waiting ]
      else [])))
  { block := block
    reps := 0
    info :=
      { alternating := alternating_no_mw
        controlled_variable := freq_array
        units := ( "Hz", "")
        labels := ( "Frequency", "Signal")
        number_of_lasers := num_of_points } }

/-- `generate_rabi_pentacene`: one block with a swept-duration microwave
element (duration `tau_start`, per-repetition increment `tau_step`), repeated
`num_of_points - 1` further times by the ensemble; `number_of_lasers` is
`2 * num_of_points` when alternating, else `num_of_points`. -/
def generate_rabi_pentacene (gen : GenCtx) (tau_start tau_step : ℚ) (num_of_points : ℕ)
    (wait_2_time : ℚ) (alternating_no_mw : Bool) : GenResult :=
  let tau_array := (List.range num_of_points).map (fun i => tau_start + (i : ℚ) * tau_step)
  let waiting := PElem.idle gen.wait_time 0
  let waitingAfterMW := PElem.idle wait_2_time 0
  let laser := PElem.laserGate gen.laser_length 0
  let mwElem := PElem.mw tau_start tau_step gen.microwave_amplitude gen.microwave_frequency 0
  let noMwElem := PElem.mw tau_start tau_step 0 (gen.microwave_frequency / 2) 0
  let block :=
    [ waiting, mwElem, waitingAfterMW, laser, PElem.delayGate ]
    ++ (if alternating_no_mw then
        [ waiting, noMwElem, waitingAfterMW, laser, PElem.delayGate ]
      else [])
  { block := block
    reps := num_of_points - 1
    info :=
      { alternating := alternating_no_mw
        controlled_variable := tau_array
        units := ( "s", "")
        labels := ( "Tau", "Signal")
        number_of_lasers := if alternating_no_mw then 2 * num_of_points else num_of_points } }

/-- `generate_t1_pentacene`: one block with a swept-duration idle element,
a pi pulse prepended in the alternating control half; `number_of_lasers` is
`2 * num_of_points` when alternating, else `num_of_points`. -/
def generate_t1_pentacene (gen : GenCtx) (tau_start tau_step : ℚ) (num_of_points : ℕ)
    (alternating : Bool) (wait_2_time : ℚ) : GenResult :=
  let tau_array := (List.range num_of_points).map (fun i => tau_start + (i : ℚ) * tau_step)
  let waiting := PElem.idle gen.wait_time 0
  let waitingAfterMW := PElem.idle wait_2_time 0
  let laser := PElem.laserGate gen.laser_length 0
  let piElem := PElem.mw (gen.rabi_period / 2) 0 gen.microwave_amplitude gen.microwave_frequency 0
  let tauElem := PElem.idle tau_start tau_step
  let block :=
    [ tauElem, waitingAfterMW, laser, PElem.delayGate, waiting ]
    ++ (if alternating then
        [ piElem, tauElem, waitingAfterMW, laser, PElem.delayGate, waiting ]
      else [])
  { block := block
    reps := num_of_points - 1
    info :=
      { alternating := alternating
        controlled_variable := tau_array
        units := ( "s", "")
        labels := ( "Tau", "Signal")
        number_of_lasers := if alternating then 2 * num_of_points else num_of_points } }

/-- Python attribute lookup on an object with attribute-name set `attrs`. -/
def pyGetattrName (attrs : List String) (name : String) : Except PyErr Unit :=
  if attrs.contains name then Except.ok () else Except.error PyErr.attributeError

/-- Modelled from the spec: the attribute names available on a
`PentaceneMethods` generator object — its own generator methods and the
base-generator context members (`PredefinedGeneratorBase` lives in
logic/pulsed/pulse_objects.py, which is not under src/).  Python objects have
no attribute named `self` unless one is assigned, and neither the class in
src/ nor the spec's description of the generator context assigns one. -/
def pentaceneAttrs : List String :=
  [ "generate_podmr_pentacene", "generate_fakecwodmr_pentacene",
    "generate_rabi_pentacene", "generate_rabi_NV_red_read",
    "generate_t1_pentacene", "generate_laser_on_jump",
    "generate_pol_ise_pentacene", "generate_deer_ramsey",
    "microwave_frequency", "microwave_amplitude", "rabi_period",
    "wait_time", "laser_length", "laser_channel", "log",
    "_get_idle_element", "_get_laser_element", "_get_laser_gate_element",
    "_get_mw_element", "_get_mw_laser_element", "_get_delay_gate_element",
    "_get_mw_element_linearchirp", "_add_trigger" ]

/-- A linear-frequency-chirp microwave element with the digital-channel highs
relevant to the ISE sequence. -/
structure ChirpElem where
  length : ℚ
  increment : ℚ
  amplitude : ℚ
  start_freq : ℚ
  stop_freq : ℚ
  phase : ℚ
  laser_high : Bool
  jump_high : Bool
deriving DecidableEq

/-- Result of the polarization/ISE generator: the single block of chirp
elements, whether the divisibility warning was logged, and the
`number_of_lasers` metadata entry. -/
structure PolIseResult where
  block : List ChirpElem
  warned : Bool
  number_of_lasers : ℕ
deriving DecidableEq

/-- `generate_pol_ise_pentacene`: computes `n_mw_chirps = int(t_laser /
t_mw_ramp)`, warns when `t_laser % t_mw_ramp != 0.`, computes the chirp
endpoints `microwave_frequency ∓ f_mw_sweep / 2`, then evaluates
`self.self._get_mw_element_linearchirp(...)` — an attribute access `self.self`
on the generator object, which raises AttributeError before any element or
block is built; were the attribute present, the block would be the chirp
element repeated `n_mw_chirps` times with laser and jump channels high. -/
def generate_pol_ise_pentacene (gen : GenCtx) (t_laser t_mw_ramp f_mw_sweep : ℚ) :
    Except PyErr PolIseResult :=
  let n_mw_chirps := pyTrunc (t_laser / t_mw_ramp)
  let warned := decide (pyMod t_laser t_mw_ramp ≠ 0)
  let mw_freq_start := gen.microwave_frequency - f_mw_sweep / 2
  let mw_freq_end := gen.microwave_frequency + f_mw_sweep / 2
  match pyGetattrName gen.attrs "self" with
  | Except.error e => Except.error e
  | Except.ok _ =>
    let mw_sweep_element : ChirpElem :=
      { length := t_mw_ramp, increment := 0, amplitude := gen.microwave_amplitude,
        start_freq := mw_freq_start, stop_freq := mw_freq_end, phase := 0,
        laser_high := true, jump_high := true }
    Except.ok
      { block := List.replicate n_mw_chirps.toNat mw_sweep_element,
        warned := warned, number_of_lasers := 1 }

/-! Cavity-stabilisation console
(src/gui/cavity_stabilisation/cavity_stabilisation_gui.py). -/

/-- Console/logic state touched by `scan_resolution_changed`: the logic's
start/end voltages and stored scan resolution, the spin-box value, and how
many warnings have been logged. -/
structure CavityState where
  start_voltage : ℚ
  end_voltage : ℚ
  scan_resolution : ℚ
  spin_box : ℚ
  warn_count : ℕ
deriving DecidableEq

/-- `scan_resolution_changed`: reads the spin box, computes
`maximal_scan_resolution = calculate_resolution(16, [min(start, end),
max(start, end)])` (the logic's `calculate_resolution`, outside src/, passed
here as `calcRes`), and either clamps the stored and displayed resolution to
that maximum with a warning, or stores the entered value unchanged. -/
def scan_resolution_changed (calcRes : ℤ → ℚ → ℚ → ℚ) (st : CavityState) : CavityState :=
  let resolution := st.spin_box
  let minV := min st.start_voltage st.end_voltage
  let maxV := max st.start_voltage st.end_voltage
  let maximal_scan_resolution := calcRes 16 minV maxV
  if resolution < maximal_scan_resolution then
    { st with scan_resolution := maximal_scan_resolution,
              spin_box := maximal_scan_resolution,
              warn_count := st.warn_count + 1 }
  else
    { st with scan_resolution := resolution }

/-! Concrete sample states used by the concrete theorems and witnesses. -/

/-- The default ungated state with the config-option constants carried as the
binary64 values the Python floats `200e-9`, `400e-9` and `0.25e-9` actually
denote. -/
def fcDefaultF64 : FcState :=
  { fcDefault with
    trigger_safety := f64lit (1 / 5000000)
    aom_delay := f64lit (1 / 2500000)
    minimal_binwidth := f64lit (1 / 4000000000) }

/-- Ungated driver state with a device range of 5 bins. -/
def fcUngatedSample : FcState := { fcDefault with range := 5 }

/-- Gated driver state with a device range of 4 bins over 2 cycles. -/
def fcGatedSample : FcState := { fcDefault with gated := true, range := 4, cycles := 2 }

/-- The gated sample state right after a `pause_measure`: halted, with the
whole `(trace, info)` pair of `get_data_trace` stored in `timetrace_tmp`. -/
def fcGatedPausedSample : FcState :=
  { fcGatedSample with
    stopped_or_halt := StopHalt.halt,
    timetrace_tmp := TmpBuf.snapshot (Trace.two [[ 0, 1 ], [ 2, 3 ]]) ⟨0, none⟩ }

/-- Unlocked scanner with all four axis ranges `[0, 1]` and position at the
origin. -/
def cexScanner : ScannerState :=
  { locked := false
    rangeX := (0, 1), rangeY := (0, 1), rangeZ := (0, 1), rangeA := (0, 1)
    posX := 0, posY := 0, posZ := 0, posA := 0 }

/-- Counter state with one digital and one analogue channel but no counter
task configured (the first precondition of `get_counter` fails). -/
def cexCounter : CounterState :=
  { counter_daq_tasks := []
    counter_channels := [ "Dev1/Ctr0" ]
    counter_ai_channels := [ "Dev1/AI0" ]
    counter_analog_daq_task := none
    samples_number := 10
    clock_frequency := 100 }

/-- Freshly activated fixed-role clock state: no task open, distinct physical
channels, defaults of 100 Hz. -/
def freshClock : NiClockState :=
  { clock_frequency := 100
    scanner_clock_frequency := 100
    default_clock_frequency := 100
    default_scanner_clock_frequency := 100
    clock_channel := "Dev1/Ctr2"
    scanner_clock_channel := "Dev1/Ctr3"
    clock_daq_task := none
    scanner_clock_daq_task := none }

/-- Freshly activated generalized clock registry with one free channel. -/
def freshClockNew : NiClockNewState :=
  { clock_daq_task_new := []
    clock_frequency_new := []
    clock_channel_new := []
    clock_channels := [ "Dev1/Ctr1" ]
    dummy_frequency := 100 }

/-- A generator context with typical base-generator timing constants. -/
def sampleGen : GenCtx :=
  { microwave_frequency := 1400000000
    microwave_amplitude := 1 / 4
    rabi_period := 1 / 10000000
    wait_time := 1 / 1000000
    laser_length := 3 / 1000000
    attrs := pentaceneAttrs }

/-- A cavity console state with a 1 V span and an entered resolution of
1 mV. -/
def cavitySample : CavityState :=
  { start_voltage := 0
    end_voltage := 1
    scan_resolution := 1 / 1000
    spin_box := 1 / 1000
    warn_count := 0 }

/-- A concrete stand-in for the logic's `calculate_resolution(bits, range)`:
the voltage span divided by the number of DAC steps. -/
def calcResSample : ℤ → ℚ → ℚ → ℚ :=
  fun bits lo hi => (hi - lo) / ((2 : ℚ) ^ bits.toNat - 1)

/-- The successful result of `set_up_clock` on `freshClock` at 100 Hz
(counter role): the task handle is created and the pulse frequency handed to
the hardware is 100. -/
def c4OldResult : NiClockState × COPulseArgs :=
  ({ freshClock with clock_daq_task := some 1 },
   { idleHigh := false, freq := 100, duty := 1 / 2 })

/-- The successful result of `set_up_clock_new` on `freshClockNew` at 100 Hz
under the name Scanner_clock. -/
def c4NewResult : NiClockNewState × COPulseArgs :=
  ({ freshClockNew with
      clock_daq_task_new := [ "Scanner_clock" ],
      clock_frequency_new := [( "Scanner_clock", 100)],
      clock_channel_new := [( "Scanner_clock", "Dev1/Ctr1")] },
   { idleHigh := false, freq := 100, duty := 1 / 2 })

/-! Helper lemmas shared by the claim theorems. -/

/-- The capped poll loop never runs past its fuel. -/
theorem cappedPollAux_le (poll : ℕ → ℤ) (t : ℤ) :
    ∀ (fuel i : ℕ), cappedPollAux poll t fuel i ≤ i + fuel := by
  intro fuel
  induction fuel with
  | zero => intro i; simp [cappedPollAux]
  | succ f ih =>
    intro i
    simp only [cappedPollAux]
    by_cases h : poll i ≠ t
    · rw [if_pos h]
      have := ih (i + 1)
      omega
    · rw [if_neg h]
      omega

/-- When the target never appears within the fuel, the capped loop exhausts
exactly its fuel. -/
theorem cappedPollAux_all_miss (poll : ℕ → ℤ) (t : ℤ) :
    ∀ (fuel i : ℕ), (∀ j, j < i + fuel → poll j ≠ t) →
      cappedPollAux poll t fuel i = i + fuel := by
  intro fuel
  induction fuel with
  | zero => intro i _; simp [cappedPollAux]
  | succ f ih =>
    intro i h
    have hi : poll i ≠ t := h i (by omega)
    simp only [cappedPollAux, if_pos hi]
    have := ih (i + 1) (fun j hj => h j (by omega))
    omega

/-- When the target never appears within the fuel, the uncapped loop is still
polling after the fuel is consumed. -/
theorem unboundedPollAux_all_miss (poll : ℕ → ℤ) (t : ℤ) :
    ∀ (fuel i : ℕ), (∀ j, j < i + fuel → poll j ≠ t) →
      unboundedPollAux poll t fuel i = none := by
  intro fuel
  induction fuel with
  | zero => intro i _; rfl
  | succ f ih =>
    intro i h
    have hi : poll i ≠ t := h i (by omega)
    simp only [unboundedPollAux, if_pos hi]
    exact ih (i + 1) (fun j hj => h j (by omega))

/-- Lookup of a key absent from the key list of a key-indexed map table. -/
theorem lookup_map_pair_eq_none {α : Type} (v : String → α) (n : String) :
    ∀ (l : List String), l.contains n = false →
      (l.map (fun s => (s, v s))).lookup n = none := by
  intro l
  induction l with
  | nil => intro _; rfl
  | cons a t ih =>
    intro h
    have hsplit : (n == a) = false ∧ t.contains n = false := by
      simp only [List.contains, List.elem] at h
      cases hna : n == a with
      | true => rw [hna] at h; simp at h
      | false =>
        rw [hna] at h
        exact ⟨rfl, h⟩
    simp only [List.map, List.lookup, hsplit.1]
    exact ih hsplit.2

/-- C3 (counterexample): the claim says all four measure operations poll at
most 20 iterations and return with a warning on timeout.  With a device whose
status stays 2 (never the paused status 3), `pause_measure` is still inside
its poll loop after 21 iterations — and likewise after 1000 — so its loop is
not capped at 20 iterations and never returns with a warning. -/
theorem claim_C3_counterexample :
    fc_pause_measure_poll (fun _ => 2) 21 = none
      ∧ fc_pause_measure_poll (fun _ => 2) 1000 = none := by
  exact ⟨rfl, rfl⟩

/-- C3 (amended): `start_measure` and `stop_measure` poll `get_status` at most
20 iterations and, when the expected state (2 running, 1 idle) is not seen,
stop at exactly 20 iterations with the timeout warning logged; `pause_measure`
and the ungated branch of `continue_measure` poll with no iteration cap and
return only when the expected state (3 paused, 2 running) is observed, while
the gated branch of `continue_measure` delegates to `start_measure` and
inherits its cap. -/
theorem claim_C3_amended (poll : ℕ → ℤ) :
    (fc_start_measure_poll poll).1 ≤ 20
    ∧ ((∀ j, j < 20 → poll j ≠ 2) → fc_start_measure_poll poll = (20, true))
    ∧ (fc_stop_measure_poll poll).1 ≤ 20
    ∧ ((∀ j, j < 20 → poll j ≠ 1) → fc_stop_measure_poll poll = (20, true))
    ∧ (∀ fuel, (∀ j, j < fuel → poll j ≠ 3) → fc_pause_measure_poll poll fuel = none)
    ∧ (∀ fuel, (∀ j, j < fuel → poll j ≠ 2) → fc_continue_measure_poll false poll fuel = none)
    ∧ (∀ fuel i, fc_pause_measure_poll poll fuel = some i → poll i = 3)
    ∧ (∀ fuel, fc_continue_measure_poll true poll fuel = some (fc_start_measure_poll poll).1) := by
  have hstart : (fc_start_measure_poll poll).1 ≤ 20 := by
    simpa using cappedPollAux_le poll 2 20 0
  refine ⟨hstart, ?_, ?_, ?_, ?_, ?_, ?_, ?_⟩
  · intro h
    have := cappedPollAux_all_miss poll 2 20 0 (by simpa using h)
    simp [fc_start_measure_poll, this]
  · simpa using cappedPollAux_le poll 1 20 0
  · intro h
    have := cappedPollAux_all_miss poll 1 20 0 (by simpa using h)
    simp [fc_stop_measure_poll, this]
  · intro fuel h
    exact unboundedPollAux_all_miss poll 3 fuel 0 (by simpa using h)
  · intro fuel h
    simp only [fc_continue_measure_poll, if_neg (by simp : ¬(false = true))]
    exact unboundedPollAux_all_miss poll 2 fuel 0 (by simpa using h)
  · intro fuel
    have haux : ∀ (f i0 i : ℕ), unboundedPollAux poll 3 f i0 = some i → poll i = 3 := by
      intro f
      induction f with
      | zero => intro i0 i h; exact absurd h (by simp [unboundedPollAux])
      | succ g ih =>
        intro i0 i h
        simp only [unboundedPollAux] at h
        by_cases hp : poll i0 ≠ 3
        · rw [if_pos hp] at h
          exact ih (i0 + 1) i h
        · rw [if_neg hp] at h
          cases h
          exact not_not.mp hp
    intro i h
    exact haux fuel 0 i h
  · intro fuel
    rfl

/-- C3 (witness for the amended theorem): with a device stuck at status 5,
`start_measure` stops after exactly 20 iterations with the warning, and
`pause_measure` is still polling after 37 iterations. -/
theorem claim_C3_amended_witness :
    (∀ j, j < 20 → (fun _ => (5 : ℤ)) j ≠ 2)
    ∧ fc_start_measure_poll (fun _ => 5) = (20, true)
    ∧ fc_pause_measure_poll (fun _ => 5) 37 = none :=
  ⟨fun j _ => (by decide : (5 : ℤ) ≠ 2),
   (claim_C3_amended (fun _ => 5)).2.1 (fun j _ => (by decide : (5 : ℤ) ≠ 2)),
   (claim_C3_amended (fun _ => 5)).2.2.2.2.1 37 (fun j _ => (by decide : (5 : ℤ) ≠ 3))⟩

/-- C7 (counterexample): `configure` with `gated=False`,
`trigger_safety=200e-9`, `record_length_s=1e-6` and `bin_width_s=1e-9` does
not compute 800 bins: in IEEE double arithmetic `(1e-6 - 200e-9) / 1e-9` is
799.9999999999999, so the `int(...)` bin count the driver computes is 799,
refuting the claim's `= 800` intermediate (only the stored 768 survives). -/
theorem claim_C7_counterexample :
    fc_configure_bins fcDefaultF64 (f64lit (1 / 1000000000)) (f64lit (1 / 1000000)) = 799
    ∧ fc_configure_bins fcDefaultF64 (f64lit (1 / 1000000000)) (f64lit (1 / 1000000)) ≠ 800 := by
  constructor
  · with_unfolding_all rfl
  · with_unfolding_all decide

/-- C7 (amended): `set_length` always rounds the stored measurement length
down to the nearest multiple of 64 bins whenever the `max_bins` constraint
admits it — concretely `set_length(130)` on the ungated driver (cycle
multiplier 1) stores 128 — and `configure` with `gated=False`,
`trigger_safety=200e-9`, `record_length_s=1e-6`, `bin_width_s=1e-9` first
computes `int((1e-6 - 200e-9) / 1e-9) = 799` bins under the program's IEEE
double arithmetic (the exact-arithmetic value would be 800) and then stores
`64 * int(799 / 64) = 768`. -/
theorem claim_C7_amended :
    (∀ (st : FcState) (len : ℤ),
        ((len * (if st.gated then st.cycles else 1) : ℤ) : ℚ) < fc_max_bins →
        (fc_set_length st len).1.range = 64 * pyTrunc ((len : ℚ) / 64)
          ∧ (fc_set_length st len).2 = 64 * pyTrunc ((len : ℚ) / 64))
    ∧ (fc_set_length fcDefault 130).1.range = 128
    ∧ fc_configure_bins fcDefaultF64 (f64lit (1 / 1000000000)) (f64lit (1 / 1000000)) = 799
    ∧ (fc_configure fcDefaultF64 (f64lit (1 / 1000000000)) (f64lit (1 / 1000000)) 0 none
        none).1.range = 768 := by
  refine ⟨?_, ?_, ?_, ?_⟩
  · intro st len h
    simp only [fc_set_length, fc_is_gated, fc_get_cycles]
    rw [if_pos h]
    exact ⟨rfl, rfl⟩
  · with_unfolding_all rfl
  · with_unfolding_all rfl
  · with_unfolding_all rfl

/-- C7 (witness): the rounding clause applied at the ungated default state and
length 130, whose constraint hypothesis holds. -/
theorem claim_C7_witness :
    ((130 * (if fcDefault.gated then fcDefault.cycles else 1) : ℤ) : ℚ) < fc_max_bins
    ∧ (fc_set_length fcDefault 130).1.range = 64 * pyTrunc ((130 : ℚ) / 64) :=
  ⟨by with_unfolding_all decide,
   (claim_C7_amended.1 fcDefault 130 (by with_unfolding_all decide)).1⟩

/-- C10: every call to `get_sequences` reads the field named sequences from a
freshly filled `AcqSettings` structure; that name is not among the declared
`_fields_`, so whatever values the device wrote, the access raises an
AttributeError and the method never returns a value. -/
theorem claim_C10_get_sequences_raises (v : String → ℤ) :
    fc_get_sequences v = Except.error PyErr.attributeError := by
  have h : (acqSettingsFieldNames.map (fun s => (s, v s))).lookup "sequences" = none :=
    lookup_map_pair_eq_none v "sequences" acqSettingsFieldNames (by decide)
  simp [fc_get_sequences, acqSettings, cstructGetattr, h]

/-- C10 (witness): the theorem applied to the all-zero device read. -/
theorem claim_C10_witness :
    fc_get_sequences (fun _ => 0) = Except.error PyErr.attributeError :=
  claim_C10_get_sequences_raises (fun _ => 0)

/-- C8: ungated `get_data_trace` returns a 1-D trace of the device-reported
range (here range 5, bins 0..4); gated it returns a 2-D trace of shape
`(cycles, range/cycles)` (here 2 x 2); but after a gated `pause_measure` the
pending snapshot is the whole `(trace, info)` pair, and the next
`get_data_trace` raises a TypeError at `time_trace + self.timetrace_tmp`
instead of returning the element-wise sum the claim describes. -/
theorem claim_C8_gated_pause_snapshot :
    fc_get_data_trace fcUngatedSample (fun i => (i : ℤ)) 0
      = Except.ok (Trace.one [ 0, 1, 2, 3, 4 ], ⟨0, none⟩)
    ∧ fc_get_data_trace fcGatedSample (fun i => (i : ℤ)) 0
      = Except.ok (Trace.two [[ 0, 1 ], [ 2, 3 ]], ⟨0, none⟩)
    ∧ fc_pause_measure fcGatedSample (fun i => (i : ℤ)) 0
      = Except.ok fcGatedPausedSample
    ∧ fc_get_data_trace fcGatedPausedSample (fun i => (i : ℤ)) 0
      = Except.error PyErr.typeError := by
  refine ⟨?_, ?_, ?_, ?_⟩
  · with_unfolding_all rfl
  · with_unfolding_all rfl
  · with_unfolding_all rfl
  · with_unfolding_all rfl

/-- C5: every call of `generate_pol_ise_pentacene` evaluates
`self.self._get_mw_element_linearchirp(...)`; the generator object has no
attribute named self, so the call raises an AttributeError for all laser and
ramp durations and never returns the chirp block. -/
theorem claim_C5_pol_ise_always_raises (t_laser t_mw_ramp f_mw_sweep : ℚ) :
    generate_pol_ise_pentacene sampleGen t_laser t_mw_ramp f_mw_sweep
      = Except.error PyErr.attributeError := by
  have h : pyGetattrName sampleGen.attrs "self" = Except.error PyErr.attributeError := rfl
  simp [generate_pol_ise_pentacene, h]

/-- C5 (witness): the theorem applied at the default arguments
`t_laser=1e-6`, `t_mw_ramp=100e-9`, `f_mw_sweep=10e6`. -/
theorem claim_C5_witness :
    generate_pol_ise_pentacene sampleGen (1 / 1000000) (1 / 10000000) 10000000
      = Except.error PyErr.attributeError :=
  claim_C5_pol_ise_always_raises (1 / 1000000) (1 / 10000000) 10000000

/-- C6: with `alternating` requested and 20 sweep points, the pulsed-ODMR and
fake-CW-ODMR generators store `number_of_lasers = 20` although their assembled
blocks contain 40 laser readout elements and `alternating = true` — only the
Rabi and T1 generators store the doubled value 40 the claim asserts for all
four. -/
theorem claim_C6_number_of_lasers :
    (generate_podmr_pentacene sampleGen 1430000000 2000000 (1 / 20000) 20 true).info.alternating
      = true
    ∧ (generate_podmr_pentacene sampleGen 1430000000 2000000 (1 / 20000) 20 true).info.number_of_lasers
      = 20
    ∧ countLasers (generate_podmr_pentacene sampleGen 1430000000 2000000 (1 / 20000) 20 true).block
      = 40
    ∧ (generate_fakecwodmr_pentacene sampleGen 1430000000 2000000 (1 / 20000) 20 true).info.number_of_lasers
      = 20
    ∧ countLasers (generate_fakecwodmr_pentacene sampleGen 1430000000 2000000 (1 / 20000) 20 true).block
      = 40
    ∧ (generate_rabi_pentacene sampleGen (1 / 100000000) (1 / 100000000) 20 (1 / 20000) true).info.number_of_lasers
      = 40
    ∧ (generate_t1_pentacene sampleGen (1 / 1000000) (1 / 1000000) 20 true (1 / 20000)).info.number_of_lasers
      = 40 := by
  refine ⟨?_, ?_, ?_, ?_, ?_, ?_, ?_⟩
  · with_unfolding_all rfl
  · with_unfolding_all rfl
  · with_unfolding_all rfl
  · with_unfolding_all rfl
  · with_unfolding_all rfl
  · with_unfolding_all rfl
  · with_unfolding_all rfl

/-- C9: in `scan_resolution_changed`, whenever the maximal resolution computed
by the logic over the span `[min(start, end), max(start, end)]` with 16 bits
exceeds the entered spin-box value, both the logic's stored resolution and the
displayed spin-box value are overwritten with that maximum and the warning
counter increases; whenever the entered value is greater than or equal to the
computed maximum, the entered value is stored unchanged and the display and
warning counter are untouched. -/
theorem claim_C9_resolution_clamp (calcRes : ℤ → ℚ → ℚ → ℚ) (st : CavityState) :
    (st.spin_box
        < calcRes 16 (min st.start_voltage st.end_voltage) (max st.start_voltage st.end_voltage) →
      scan_resolution_changed calcRes st =
        { st with
          scan_resolution :=
            calcRes 16 (min st.start_voltage st.end_voltage) (max st.start_voltage st.end_voltage)
          spin_box :=
            calcRes 16 (min st.start_voltage st.end_voltage) (max st.start_voltage st.end_voltage)
          warn_count := st.warn_count + 1 })
    ∧ (calcRes 16 (min st.start_voltage st.end_voltage) (max st.start_voltage st.end_voltage)
        ≤ st.spin_box →
      scan_resolution_changed calcRes st = { st with scan_resolution := st.spin_box }) := by
  constructor
  · intro h
    simp only [scan_resolution_changed]
    rw [if_pos h]
  · intro h
    simp only [scan_resolution_changed]
    rw [if_neg (not_lt.mpr h)]

/-- C9 (witness): with a 16-bit step over a 1 V span (about 15 µV) and an
entered resolution of 1 mV, the entered value meets the maximum and is stored
unchanged. -/
theorem claim_C9_witness :
    calcResSample 16 (min cavitySample.start_voltage cavitySample.end_voltage)
        (max cavitySample.start_voltage cavitySample.end_voltage) ≤ cavitySample.spin_box
    ∧ scan_resolution_changed calcResSample cavitySample
        = { cavitySample with scan_resolution := cavitySample.spin_box } :=
  ⟨by with_unfolding_all decide,
   (claim_C9_resolution_clamp calcResSample cavitySample).2 (by with_unfolding_all decide)⟩

/-- Behaviour of the axis-a tail of `scanner_set_position`. -/
theorem ssp_a_spec (st : ScannerState) (a : Option ℚ) :
    (okA st a = false → scanner_set_position_a st a = (-1, st))
    ∧ (okA st a = true → scanner_set_position_a st a = (0, updA st a)) := by
  cases a with
  | none =>
    exact ⟨fun h => absurd h (by simp [okA]), fun _ => rfl⟩
  | some v =>
    constructor
    · intro h
      simp only [okA, decide_eq_false_iff_not] at h
      simp [scanner_set_position_a, if_neg h]
    · intro h
      simp only [okA, decide_eq_true_eq] at h
      simp [scanner_set_position_a, updA, if_pos h]

/-- Behaviour of the axis-z tail of `scanner_set_position`. -/
theorem ssp_z_spec (st : ScannerState) (z a : Option ℚ) :
    (okZ st z = false → scanner_set_position_z st z a = (-1, st))
    ∧ (okZ st z = true → okA st a = false → scanner_set_position_z st z a = (-1, updZ st z))
    ∧ (okZ st z = true → okA st a = true →
        scanner_set_position_z st z a = (0, updA (updZ st z) a)) := by
  cases z with
  | none =>
    refine ⟨fun h => absurd h (by simp [okZ]), fun _ h => ?_, fun _ h => ?_⟩
    · simpa [scanner_set_position_z, updZ] using (ssp_a_spec st a).1 h
    · simpa [scanner_set_position_z, updZ] using (ssp_a_spec st a).2 h
  | some v =>
    refine ⟨?_, ?_, ?_⟩
    · intro h
      simp only [okZ, decide_eq_false_iff_not] at h
      simp [scanner_set_position_z, if_neg h]
    · intro hz ha
      simp only [okZ, decide_eq_true_eq] at hz
      have hA : okA { st with posZ := v } a = okA st a := by cases a <;> rfl
      have := (ssp_a_spec { st with posZ := v } a).1 (by rw [hA]; exact ha)
      simp [scanner_set_position_z, if_pos hz, updZ, this]
    · intro hz ha
      simp only [okZ, decide_eq_true_eq] at hz
      have hA : okA { st with posZ := v } a = okA st a := by cases a <;> rfl
      have := (ssp_a_spec { st with posZ := v } a).2 (by rw [hA]; exact ha)
      simp [scanner_set_position_z, if_pos hz, updZ, this]

/-- Behaviour of the axis-y tail of `scanner_set_position`. -/
theorem ssp_y_spec (st : ScannerState) (y z a : Option ℚ) :
    (okY st y = false → scanner_set_position_y st y z a = (-1, st))
    ∧ (okY st y = true → okZ st z = false → scanner_set_position_y st y z a = (-1, updY st y))
    ∧ (okY st y = true → okZ st z = true → okA st a = false →
        scanner_set_position_y st y z a = (-1, updZ (updY st y) z))
    ∧ (okY st y = true → okZ st z = true → okA st a = true →
        scanner_set_position_y st y z a = (0, updA (updZ (updY st y) z) a)) := by
  cases y with
  | none =>
    refine ⟨fun h => absurd h (by simp [okY]), fun _ h => ?_, fun _ hz ha => ?_,
      fun _ hz ha => ?_⟩
    · simpa [scanner_set_position_y, updY] using (ssp_z_spec st z a).1 h
    · simpa [scanner_set_position_y, updY] using (ssp_z_spec st z a).2.1 hz ha
    · simpa [scanner_set_position_y, updY] using (ssp_z_spec st z a).2.2 hz ha
  | some v =>
    have hZ : okZ { st with posY := v } z = okZ st z := by cases z <;> rfl
    have hA : okA { st with posY := v } a = okA st a := by cases a <;> rfl
    refine ⟨?_, ?_, ?_, ?_⟩
    · intro h
      simp only [okY, decide_eq_false_iff_not] at h
      simp [scanner_set_position_y, if_neg h]
    · intro hy hz
      simp only [okY, decide_eq_true_eq] at hy
      have := (ssp_z_spec { st with posY := v } z a).1 (by rw [hZ]; exact hz)
      simp [scanner_set_position_y, if_pos hy, updY, this]
    · intro hy hz ha
      simp only [okY, decide_eq_true_eq] at hy
      have := (ssp_z_spec { st with posY := v } z a).2.1 (by rw [hZ]; exact hz)
        (by rw [hA]; exact ha)
      simp [scanner_set_position_y, if_pos hy, updY, this]
    · intro hy hz ha
      simp only [okY, decide_eq_true_eq] at hy
      have := (ssp_z_spec { st with posY := v } z a).2.2 (by rw [hZ]; exact hz)
        (by rw [hA]; exact ha)
      simp [scanner_set_position_y, if_pos hy, updY, this]

/-- C1 (counterexample): on an unlocked scanner with every axis range `[0, 1]`
and position at the origin, requesting `x = 0.5` (in range) together with
`y = 5` (out of range) returns -1 — but the tracked current-position vector
has changed: axis x was already overwritten before y was checked, refuting
the claim that a rejected call leaves the vector completely unchanged. -/
theorem claim_C1_counterexample :
    (scanner_set_position cexScanner (some (1 / 2)) (some 5) none none).1 = -1
    ∧ (scanner_set_position cexScanner (some (1 / 2)) (some 5) none none).2 ≠ cexScanner := by
  constructor
  · with_unfolding_all rfl
  · with_unfolding_all decide

/-- C1 (amended): a call of `scanner_set_position` with the module locked, or
with some requested axis outside its range, returns -1 and skips the hardware
write — but only the tracked positions of the first failing axis and of the
axes after it are left unchanged: the requested axes checked earlier in the
fixed order x, y, z, a have already been written into the current-position
vector (the locked rejection alone leaves the whole vector unchanged).  When
every requested axis is in range the call returns 0 with all requested axes
written. -/
theorem claim_C1_amended (st : ScannerState) (x y z a : Option ℚ) :
    (st.locked = true → scanner_set_position st x y z a = (-1, st))
    ∧ (st.locked = false → okX st x = false → scanner_set_position st x y z a = (-1, st))
    ∧ (st.locked = false → okX st x = true → okY st y = false →
        scanner_set_position st x y z a = (-1, updX st x))
    ∧ (st.locked = false → okX st x = true → okY st y = true → okZ st z = false →
        scanner_set_position st x y z a = (-1, updY (updX st x) y))
    ∧ (st.locked = false → okX st x = true → okY st y = true → okZ st z = true →
        okA st a = false →
        scanner_set_position st x y z a = (-1, updZ (updY (updX st x) y) z))
    ∧ (st.locked = false → okX st x = true → okY st y = true → okZ st z = true →
        okA st a = true →
        scanner_set_position st x y z a = (0, updA (updZ (updY (updX st x) y) z) a)) := by
  refine ⟨?_, ?_, ?_, ?_, ?_, ?_⟩
  · intro h
    simp [scanner_set_position, h]
  all_goals intro hlock
  · intro hx
    cases x with
    | none => exact absurd hx (by simp [okX])
    | some v =>
      simp only [okX, decide_eq_false_iff_not] at hx
      simp [scanner_set_position, hlock, if_neg hx]
  all_goals intro hx
  · intro hy
    cases x with
    | none =>
      simpa [scanner_set_position, hlock, updX] using (ssp_y_spec st y z a).1 hy
    | some v =>
      simp only [okX, decide_eq_true_eq] at hx
      have hY : okY { st with posX := v } y = okY st y := by cases y <;> rfl
      have := (ssp_y_spec { st with posX := v } y z a).1 (by rw [hY]; exact hy)
      rw [hlock] at this
      simp [scanner_set_position, hlock, if_pos hx, updX, this]
  all_goals intro hy
  · intro hz
    cases x with
    | none =>
      simpa [scanner_set_position, hlock, updX] using (ssp_y_spec st y z a).2.1 hy hz
    | some v =>
      simp only [okX, decide_eq_true_eq] at hx
      have hY : okY { st with posX := v } y = okY st y := by cases y <;> rfl
      have hZ : okZ { st with posX := v } z = okZ st z := by cases z <;> rfl
      have := (ssp_y_spec { st with posX := v } y z a).2.1 (by rw [hY]; exact hy)
        (by rw [hZ]; exact hz)
      rw [hlock] at this
      simp [scanner_set_position, hlock, if_pos hx, updX, this]
  all_goals intro hz
  · intro ha
    cases x with
    | none =>
      simpa [scanner_set_position, hlock, updX] using (ssp_y_spec st y z a).2.2.1 hy hz ha
    | some v =>
      simp only [okX, decide_eq_true_eq] at hx
      have hY : okY { st with posX := v } y = okY st y := by cases y <;> rfl
      have hZ : okZ { st with posX := v } z = okZ st z := by cases z <;> rfl
      have hA : okA { st with posX := v } a = okA st a := by cases a <;> rfl
      have := (ssp_y_spec { st with posX := v } y z a).2.2.1 (by rw [hY]; exact hy)
        (by rw [hZ]; exact hz) (by rw [hA]; exact ha)
      rw [hlock] at this
      simp [scanner_set_position, hlock, if_pos hx, updX, this]
  · intro ha
    cases x with
    | none =>
      simpa [scanner_set_position, hlock, updX] using (ssp_y_spec st y z a).2.2.2 hy hz ha
    | some v =>
      simp only [okX, decide_eq_true_eq] at hx
      have hY : okY { st with posX := v } y = okY st y := by cases y <;> rfl
      have hZ : okZ { st with posX := v } z = okZ st z := by cases z <;> rfl
      have hA : okA { st with posX := v } a = okA st a := by cases a <;> rfl
      have := (ssp_y_spec { st with posX := v } y z a).2.2.2 (by rw [hY]; exact hy)
        (by rw [hZ]; exact hz) (by rw [hA]; exact ha)
      rw [hlock] at this
      simp [scanner_set_position, hlock, if_pos hx, updX, this]

/-- C1 (witness for the amended theorem): on the concrete scanner state, x in
range and y out of range: the call returns -1 with exactly axis x already
overwritten. -/
theorem claim_C1_amended_witness :
    (cexScanner.locked = false ∧ okX cexScanner (some (1 / 2)) = true
      ∧ okY cexScanner (some 5) = false)
    ∧ scanner_set_position cexScanner (some (1 / 2)) (some 5) none none
        = (-1, updX cexScanner (some (1 / 2))) :=
  ⟨⟨rfl, by with_unfolding_all decide, by with_unfolding_all decide⟩,
   (claim_C1_amended cexScanner (some (1 / 2)) (some 5) none none).2.2.1 rfl
     (by with_unfolding_all decide) (by with_unfolding_all decide)⟩

/-- C2: with one counter channel plus one analogue channel configured but no
counter task set up (a precondition failure), calling `get_counter` with the
default `samples=None` evaluates `np.ones((2, None))` — the `samples is None`
normalisation only happens after the precondition checks — so the call raises
a TypeError instead of returning an array; with an integer `samples=5` the
same precondition failure does return the all-(-1) array of shape `[2, 5]`. -/
theorem claim_C2_none_samples_raises :
    get_counter cexCounter none false (fun _ _ => 0) (fun _ _ => 0)
      = Except.error PyErr.typeError
    ∧ get_counter cexCounter (some 5) false (fun _ _ => 0) (fun _ _ => 0)
      = Except.ok (List.replicate 2 (List.replicate 5 (-1))) := by
  constructor
  · with_unfolding_all rfl
  · with_unfolding_all rfl

/-- C4 (counterexample): setting up the fixed-role counter clock at a nominal
rate of 100 Hz hands the pulse frequency 100 — not 2 x 100 — to the hardware
channel-creation call: the internally doubled `my_clock_frequency` is divided
by 2 again at the `DAQmxCreateCOPulseChanFreq` call. -/
theorem claim_C4_counterexample :
    handedOrNeg1 (set_up_clock freshClock (some 100) none false false) = 100
    ∧ handedOrNeg1 (set_up_clock freshClock (some 100) none false false) ≠ 2 * 100 := by
  constructor
  · with_unfolding_all rfl
  · with_unfolding_all decide

/-- C4 (amended): for every successful clock setup with a given nominal rate,
the pulse frequency handed to the hardware channel-creation call equals
exactly the nominal rate for BOTH generations: the fixed-role pair stores the
doubled rate in its internal `my_clock_frequency` variable but passes
`my_clock_frequency / 2` to the call, and the generalized registry passes the
(positive) nominal rate unchanged. -/
theorem claim_C4_amended :
    (∀ (st : NiClockState) (f : ℚ) (scanner idle : Bool) (p : NiClockState × COPulseArgs),
        set_up_clock st (some f) none scanner idle = Except.ok p → p.2.freq = f)
    ∧ (∀ (st : NiClockNewState) (name : String) (g : ℚ) (idle : Bool)
        (q : NiClockNewState × COPulseArgs),
        0 < g → set_up_clock_new st name (some g) none idle = Except.ok q → q.2.freq = g) := by
  constructor
  · intro st f scanner idle p hp
    simp only [set_up_clock] at hp
    split_ifs at hp
    all_goals
      cases hp
      show f * 2 / 2 = f
      exact mul_div_cancel_right₀ f two_ne_zero
  · intro st name g idle q hg hq
    simp only [set_up_clock_new] at hq
    rw [if_neg (not_le.mpr hg)] at hq
    split_ifs at hq with h1
    split at hq
    · exact Except.noConfusion hq
    · split_ifs at hq with h2
      cases hq
      rfl

/-- C4 (witness for the amended theorem): both setup generations at nominal
rate 100 Hz on freshly activated states hand exactly 100 Hz to the hardware
call. -/
theorem claim_C4_amended_witness :
    (set_up_clock freshClock (some 100) none false false = Except.ok c4OldResult
      ∧ c4OldResult.2.freq = 100)
    ∧ ((0 : ℚ) < 100
      ∧ set_up_clock_new freshClockNew "Scanner_clock" (some 100) none false
          = Except.ok c4NewResult
      ∧ c4NewResult.2.freq = 100) :=
  ⟨⟨by with_unfolding_all rfl,
    claim_C4_amended.1 freshClock 100 false false c4OldResult (by with_unfolding_all rfl)⟩,
   ⟨by norm_num,
    by with_unfolding_all rfl,
    claim_C4_amended.2 freshClockNew "Scanner_clock" 100 false c4NewResult (by norm_num)
      (by with_unfolding_all rfl)⟩⟩

end Qudi
